import Mathlib

/-
Verification of the CoreAudio helper core (src/audio/out/ao_coreaudio_utils.c):
format codec, format comparator, async format switcher, channel-layout resolver.
The C code is shallowly embedded: machine integers become Nat (with explicit
truncation where a narrowing store occurs), Float64 sample rates become Rat,
and external CoreAudio calls become explicit parameters or environment records.
-/

-- ### CoreAudio constants
-- Values of the AudioFormat flag bits (CoreAudio framework headers; the exact
-- numeric values are the framework's, and only their distinctness matters here).

def kAudioFormatFlagIsFloat : Nat := 1
def kAudioFormatFlagIsBigEndian : Nat := 2
def kAudioFormatFlagIsSignedInteger : Nat := 4
def kAudioFormatFlagIsPacked : Nat := 8
def kAudioFormatFlagIsAlignedHigh : Nat := 16
def kAudioFormatFlagIsNonInterleaved : Nat := 32
def kAudioFormatFlagIsNonMixable : Nat := 64

def kAudioFormatLinearPCM : Nat := 0x6C70636D

/-- AudioStreamBasicDescription from the source: mSampleRate is a Float64,
modelled as a rational; the integer fields are unsigned 32-bit counters,
modelled as Nat. -/
structure AudioStreamBasicDescription where
  mSampleRate : Rat
  mFormatID : Nat
  mFormatFlags : Nat
  mBytesPerPacket : Nat
  mFramesPerPacket : Nat
  mBytesPerFrame : Nat
  mChannelsPerFrame : Nat
  mBitsPerChannel : Nat
deriving DecidableEq, Repr

/-- ca_match_fflags: the C loop compares target and matchee on the three flag
bits Float, SignedInteger, BigEndian and returns false on the first mismatch. -/
def ca_match_fflags (target matchee : Nat) : Bool :=
  (target &&& kAudioFormatFlagIsFloat == matchee &&& kAudioFormatFlagIsFloat) &&
  (target &&& kAudioFormatFlagIsSignedInteger == matchee &&& kAudioFormatFlagIsSignedInteger) &&
  (target &&& kAudioFormatFlagIsBigEndian == matchee &&& kAudioFormatFlagIsBigEndian)

/-- ca_asbd_matches from the source: compares the mFormatID fields only. -/
def ca_asbd_matches (target matchee : AudioStreamBasicDescription) : Bool :=
  target.mFormatID == matchee.mFormatID

/-- ca_asbd_best from the source: matches, plus equality of bits per channel,
sample rate and channel count, plus agreement on the three format flags. -/
def ca_asbd_best (target matchee : AudioStreamBasicDescription) : Bool :=
  ca_asbd_matches target matchee &&
  (target.mBitsPerChannel == matchee.mBitsPerChannel) &&
  (target.mSampleRate == matchee.mSampleRate) &&
  (target.mChannelsPerFrame == matchee.mChannelsPerFrame) &&
  ca_match_fflags target.mFormatFlags matchee.mFormatFlags

/-- ca_asbd_better from the source, line by line: returns 1 when the second
descriptor wins and -1 when the first wins. -/
def ca_asbd_better (target fst snd : AudioStreamBasicDescription) : Int :=
  if fst.mSampleRate = 0 then 1
  else if snd.mSampleRate = 0 then -1
  else if fst.mChannelsPerFrame = target.mChannelsPerFrame ∧
          snd.mChannelsPerFrame ≠ target.mChannelsPerFrame then -1
  else if fst.mChannelsPerFrame ≠ target.mChannelsPerFrame ∧
          snd.mChannelsPerFrame = target.mChannelsPerFrame then 1
  else if fst.mSampleRate < target.mSampleRate then 1
  else if snd.mSampleRate < target.mSampleRate then -1
  else if target.mSampleRate < fst.mSampleRate then 1
  else -1

/-- Zero-initialized descriptor, as in the caller's `best_asbd = {0}`. -/
def ca_asbd_uninit : AudioStreamBasicDescription :=
  { mSampleRate := 0, mFormatID := 0, mFormatFlags := 0, mBytesPerPacket := 0,
    mFramesPerPacket := 0, mBytesPerFrame := 0, mChannelsPerFrame := 0,
    mBitsPerChannel := 0 }

/-- One step of the candidate-list reduction: the challenger replaces the
current best exactly when ca_asbd_better returns a positive value. -/
def ca_pick (target best cand : AudioStreamBasicDescription) :
    AudioStreamBasicDescription :=
  if 0 < ca_asbd_better target best cand then cand else best

/-- Modelled from the spec: the caller (not under src/) reduces a candidate
list to a single winner by repeated pairwise application of ca_asbd_better,
starting from a zero-initialized best and replacing it whenever
ca_asbd_better returns a positive value. -/
def ca_asbd_reduce (target : AudioStreamBasicDescription)
    (l : List AudioStreamBasicDescription) : AudioStreamBasicDescription :=
  List.foldl (ca_pick target) ca_asbd_uninit l

/-- Convenience constructor for test descriptors: a linear-PCM packed
descriptor with the given rate and channel count. -/
def ca_test_asbd (r : Rat) (ch : Nat) : AudioStreamBasicDescription :=
  { mSampleRate := r, mFormatID := kAudioFormatLinearPCM,
    mFormatFlags := kAudioFormatFlagIsPacked ||| kAudioFormatFlagIsSignedInteger,
    mBytesPerPacket := ch * 2, mFramesPerPacket := 1, mBytesPerFrame := ch * 2,
    mChannelsPerFrame := ch, mBitsPerChannel := 16 }

example : ca_asbd_better (ca_test_asbd 48000 2) (ca_test_asbd 88200 2)
    (ca_test_asbd 96000 2) = 1 := by decide

example : ca_asbd_reduce (ca_test_asbd 48000 2)
    [ca_test_asbd 0 0, ca_test_asbd 44100 2, ca_test_asbd 48000 2,
     ca_test_asbd 96000 2] = ca_test_asbd 48000 2 := by decide

-- ### Format Codec

/-- Modelled from the spec: audio/format.h is not under src/. The sample
format's float/signed/unsigned class attribute (POINT and SIGN mask bits of
an mp format). -/
inductive AFClass where
  | flt | si | us
deriving DecidableEq, Repr

/-- Modelled from the spec: the sample format's endianness attribute (END
mask bit of an mp format). -/
inductive AFEnd where
  | be | le
deriving DecidableEq, Repr

/-- Modelled from the spec: the sample format's bit-depth attribute (the bit
depths the codec round trip ranges over are 8, 16, 24, 32). -/
inductive AFBits where
  | b8 | b16 | b24 | b32
deriving DecidableEq, Repr

def AFBits.toNat : AFBits → Nat
  | .b8 => 8
  | .b16 => 16
  | .b24 => 24
  | .b32 => 32

/-- Modelled from the spec: an mp sample format carries a float/signed/unsigned
class, an endianness and a bit depth (rate and channel count are carried
separately). -/
structure MPFormat where
  cls : AFClass
  endian : AFEnd
  bits : AFBits
deriving DecidableEq, Repr

/-- Modelled from the spec: af_fmt2bits (audio/format.h, not under src/)
returns the format's bit depth. -/
def af_fmt2bits (f : MPFormat) : Nat := f.bits.toNat

/-- Modelled from the spec: af_bits_to_mask (audio/format.h, not under src/)
maps a bit count back to the bit-depth attribute; an unsupported count yields
no depth attribute. -/
def af_bits_to_mask (bits : Nat) : Option AFBits :=
  if bits = 8 then some .b8
  else if bits = 16 then some .b16
  else if bits = 24 then some .b24
  else if bits = 32 then some .b32
  else none

/-- ca_make_asbd from the source: linear PCM, flags derived from the format's
float/signed/big-endian attributes with IsPacked always set, one frame per
packet, byte sizes channels * bits/8. The C rate argument is an int. -/
def ca_make_asbd (mp_format : MPFormat) (rate : Int) (channels : Nat) :
    AudioStreamBasicDescription :=
  let bits := af_fmt2bits mp_format
  let flags0 := kAudioFormatFlagIsPacked
  let flags1 := if mp_format.cls = .flt then flags0 ||| kAudioFormatFlagIsFloat
                else flags0
  let flags2 := if mp_format.cls = .si then flags1 ||| kAudioFormatFlagIsSignedInteger
                else flags1
  let flags3 := if mp_format.endian = .be then flags2 ||| kAudioFormatFlagIsBigEndian
                else flags2
  { mSampleRate := (rate : Rat), mFormatID := kAudioFormatLinearPCM,
    mChannelsPerFrame := channels, mBitsPerChannel := bits,
    mFormatFlags := flags3, mFramesPerPacket := 1,
    mBytesPerPacket := 1 * channels * (bits / 8),
    mBytesPerFrame := 1 * channels * (bits / 8) }

/-- ca_make_mp_format from the source: bit-depth attribute from
mBitsPerChannel (none models an AF_FORMAT_UNKNOWN bits mask), float versus
integer from IsFloat, signedness from IsSignedInteger for integers,
endianness from IsBigEndian. -/
def ca_make_mp_format (asbd : AudioStreamBasicDescription) : Option MPFormat :=
  match af_bits_to_mask asbd.mBitsPerChannel with
  | none => none
  | some b =>
    let flags := asbd.mFormatFlags
    let cls : AFClass :=
      if flags &&& kAudioFormatFlagIsFloat ≠ 0 then .flt
      else if flags &&& kAudioFormatFlagIsSignedInteger ≠ 0 then .si
      else .us
    let endian : AFEnd :=
      if flags &&& kAudioFormatFlagIsBigEndian ≠ 0 then .be else .le
    some { cls := cls, endian := endian, bits := b }

example : ca_make_mp_format (ca_make_asbd ⟨.si, .le, .b16⟩ 48000 2) =
    some ⟨.si, .le, .b16⟩ := by decide

-- ### Property listeners

/-- AudioObjectPropertyAddress from the CoreAudio framework: a selector,
scope and element triple. -/
structure AudioObjectPropertyAddress where
  mSelector : Nat
  mScope : Nat
  mElement : Nat
deriving DecidableEq, Repr

def kAudioStreamPropertyVirtualFormat : Nat := 0x73666D74
def kAudioStreamPropertyPhysicalFormat : Nat := 0x70667420
def kAudioObjectPropertyScopeGlobal : Nat := 0x676C6F62
def kAudioObjectPropertyElementMaster : Nat := 0

/-- ca_property_listener from the source: scans the notified addresses and on
the first one whose selector equals the given selector writes 1 to the shared
flag and stops; otherwise the flag keeps its old value. The flag is a C
volatile int, modelled by value. -/
def ca_property_listener (selector : Nat)
    (addresses : List AudioObjectPropertyAddress) (flag : Int) : Int :=
  match addresses with
  | [] => flag
  | a :: rest =>
    if a.mSelector = selector then 1
    else ca_property_listener selector rest flag

/-- ca_stream_listener from the source: ca_property_listener specialized to
the physical-format selector. -/
def ca_stream_listener (addresses : List AudioObjectPropertyAddress)
    (flag : Int) : Int :=
  ca_property_listener kAudioStreamPropertyPhysicalFormat addresses flag

/-- Observable effect of ca_change_stream_listening: which device, property
address, callback-context token and direction (add or remove) is passed to
the AudioObject listener API. -/
structure ListenerChange where
  device : Nat
  address : AudioObjectPropertyAddress
  ctx : Nat
  adding : Bool
deriving DecidableEq, Repr

/-- ca_change_stream_listening from the source: builds the property address
from the virtual-format selector (ignoring the sel argument) and adds or
removes ca_stream_listener on it. -/
def ca_change_stream_listening (device : Nat) (sel : Nat) (flag : Nat)
    (enabled : Bool) : ListenerChange :=
  { device := device,
    address := { mSelector := kAudioStreamPropertyVirtualFormat,
                 mScope := kAudioObjectPropertyScopeGlobal,
                 mElement := kAudioObjectPropertyElementMaster },
    ctx := flag, adding := enabled }

/-- ca_enable_stream_listener from the source. -/
def ca_enable_stream_listener (device : Nat) (sel : Nat) (flag : Nat) :
    ListenerChange :=
  ca_change_stream_listening device sel flag true

/-- ca_disable_stream_listener from the source. -/
def ca_disable_stream_listener (device : Nat) (sel : Nat) (flag : Nat) :
    ListenerChange :=
  ca_change_stream_listening device sel flag false

-- ### Async Format Switcher

/-- External calls made by ca_change_format, in order: the property fetch,
the listener registration attempt, the format-set request, each 10000 us
sleep of the polling loop, and the listener removal attempt. -/
inductive CAEvent where
  | fetch
  | enable
  | set
  | sleep (us : Nat)
  | disable
deriving DecidableEq, Repr

/-- Outcomes of the external CoreAudio calls in one run of ca_change_format:
the fetched current format (none = fetch failure), success of listener
registration, of the format-set request and of listener removal, and the
value the volatile fmt_changed flag shows at its j-th read in the polling
loop (the flag is written from the notification thread). -/
structure CAEnv where
  fetched : Option AudioStreamBasicDescription
  enableOk : Bool
  setOk : Bool
  flagRead : Nat → Bool
  disableOk : Bool

/-- Number of sleeps the polling loop performs: for j = 0,... the loop body
runs while the flag reads 0 and j < 50. -/
def ca_poll_sleeps (flagRead : Nat → Bool) : Nat :=
  (List.takeWhile (fun j => ! flagRead j) (List.range 50)).length

/-- ca_change_format from the source, as a function of the outcomes of its
external calls: returns the C function's boolean result and the ordered list
of external calls it performed. -/
def ca_change_format (env : CAEnv)
    (new_format : AudioStreamBasicDescription) : Bool × List CAEvent :=
  match env.fetched with
  | none => (false, [.fetch])
  | some actual_format =>
    if ca_asbd_best actual_format new_format then (true, [.fetch])
    else if ¬ env.enableOk then (false, [.fetch, .enable])
    else if ¬ env.setOk then (false, [.fetch, .enable, .set])
    else
      (env.disableOk,
       [.fetch, .enable, .set] ++
         List.replicate (ca_poll_sleeps env.flagRead) (.sleep 10000) ++
         [.disable])

example : ca_poll_sleeps (fun _ => false) = 50 := by decide

example : ca_change_format
    { fetched := some (ca_test_asbd 44100 2), enableOk := true, setOk := false,
      flagRead := fun _ => false, disableOk := true }
    (ca_test_asbd 48000 2) = (false, [.fetch, .enable, .set]) := by decide

-- ### Channel Layout Resolver

def kAudioChannelLayoutTag_UseChannelDescriptions : Nat := 0
def kAudioChannelLayoutTag_UseChannelBitmap : Nat := 1 <<< 16

/-- AudioChannelLayout from the source: a layout tag, a channel bitmap, and
the channel-description labels (each description contributes its
mChannelLabel). -/
structure AudioChannelLayout where
  mChannelLayoutTag : Nat
  mChannelBitmap : Nat
  mChannelDescriptions : List Nat
deriving DecidableEq, Repr

/-- speaker_map from the source: CoreAudio channel label paired with the mp
speaker id. Label and speaker-id constants come from headers not under src/;
their concrete values are the frameworks' and only injectivity of the rows
matters. The terminating Unknown sentinel row is represented by the end of
the list. -/
def speaker_map : List (Nat × Nat) :=
  [(1, 0), (2, 1), (3, 2), (4, 3), (5, 4), (6, 5), (7, 6), (8, 7), (9, 8),
   (10, 9), (11, 10), (12, 11), (13, 12), (14, 13), (15, 14), (16, 15),
   (17, 16), (18, 17),
   (33, 22), (34, 23), (35, 20), (36, 21), (37, 24),
   (301, 18), (302, 19)]

/-- ca_label_to_mp_speaker_id from the source: scan speaker_map for the label;
none models the C function's -1 result. -/
def ca_label_to_mp_speaker_id (label : Nat) : Option Nat :=
  (List.find? (fun p => p.1 == label) speaker_map).map (fun p => p.2)

/-- ca_bitmap_from_ch_desc from the source: fold over the description labels,
stopping at the first label with no speaker id (all_channels_valid false, no
result); otherwise OR 1 << id into the uint32 bitmap. -/
def ca_bitmap_from_ch_desc (labels : List Nat) (bitmap : Nat) : Option Nat :=
  match labels with
  | [] => some bitmap
  | label :: rest =>
    match ca_label_to_mp_speaker_id label with
    | none => none
    | some id => ca_bitmap_from_ch_desc rest ((bitmap ||| (1 <<< id)) % 2 ^ 32)

/-- Per-layout resolution, the body of the switch in ca_bitmaps_from_layouts:
a bitmap layout yields its bitmap, a descriptions layout resolves through the
label table starting from bitmap 0, and any other tag goes through the
platform tag-lookup service (an external CoreAudio call, passed as an
oracle). -/
def ca_layout_resolve (tagLookup : Nat → Option Nat)
    (layout : AudioChannelLayout) : Option Nat :=
  if layout.mChannelLayoutTag = kAudioChannelLayoutTag_UseChannelBitmap then
    some layout.mChannelBitmap
  else if layout.mChannelLayoutTag = kAudioChannelLayoutTag_UseChannelDescriptions then
    ca_bitmap_from_ch_desc layout.mChannelDescriptions 0
  else
    tagLookup layout.mChannelLayoutTag

/-- ca_bitmaps_from_layouts from the source: loop over the layouts in order,
appending each successfully resolved bitmap to the output array and skipping
rejected layouts. -/
def ca_bitmaps_from_layouts (tagLookup : Nat → Option Nat)
    (layouts : List AudioChannelLayout) : List Nat :=
  List.foldl
    (fun acc layout =>
      match ca_layout_resolve tagLookup layout with
      | some bm => acc ++ [bm]
      | none => acc)
    [] layouts

example : ca_bitmaps_from_layouts
    (fun t => if t = 99 then some 0x33 else none)
    [{ mChannelLayoutTag := kAudioChannelLayoutTag_UseChannelBitmap,
       mChannelBitmap := 3, mChannelDescriptions := [] },
     { mChannelLayoutTag := kAudioChannelLayoutTag_UseChannelDescriptions,
       mChannelBitmap := 0, mChannelDescriptions := [12345] },
     { mChannelLayoutTag := 99, mChannelBitmap := 0,
       mChannelDescriptions := [] }] = [3, 0x33] := by decide

-- ### Claim theorems

/-- Claim C1: among two initialized candidates with the same channel-count
match status and rates both at or above the target's, ca_asbd_better is
claimed to select the lower rate (closest from above). The code refutes
this: with target rate 48000 and candidates 88200 and 96000 (all stereo,
initialized), it returns 1 and selects the 96000 candidate, the one farther
from the target, contradicting the comment above its own rate comparison. -/
theorem ca_asbd_better_not_closest_from_above :
    (ca_test_asbd 88200 2).mSampleRate ≠ 0 ∧
    (ca_test_asbd 96000 2).mSampleRate ≠ 0 ∧
    (ca_test_asbd 88200 2).mChannelsPerFrame =
      (ca_test_asbd 48000 2).mChannelsPerFrame ∧
    (ca_test_asbd 96000 2).mChannelsPerFrame =
      (ca_test_asbd 48000 2).mChannelsPerFrame ∧
    (ca_test_asbd 48000 2).mSampleRate ≤ (ca_test_asbd 88200 2).mSampleRate ∧
    (ca_test_asbd 48000 2).mSampleRate ≤ (ca_test_asbd 96000 2).mSampleRate ∧
    (ca_test_asbd 88200 2).mSampleRate < (ca_test_asbd 96000 2).mSampleRate ∧
    ca_asbd_better (ca_test_asbd 48000 2) (ca_test_asbd 88200 2)
      (ca_test_asbd 96000 2) = 1 := by
  decide

/-- Claim C2: the pairwise reduction by ca_asbd_better is claimed to be
order-independent on lists with pairwise-distinct sample rates. The code
refutes this: for target rate 48000 the permuted two-element lists with
rates 88200 and 96000 give different winners (96000 and 88200
respectively). -/
theorem ca_asbd_reduce_order_dependent :
    List.Perm [ca_test_asbd 88200 2, ca_test_asbd 96000 2]
      [ca_test_asbd 96000 2, ca_test_asbd 88200 2] ∧
    (ca_test_asbd 88200 2).mSampleRate ≠ (ca_test_asbd 96000 2).mSampleRate ∧
    ca_asbd_reduce (ca_test_asbd 48000 2)
        [ca_test_asbd 88200 2, ca_test_asbd 96000 2] =
      ca_test_asbd 96000 2 ∧
    ca_asbd_reduce (ca_test_asbd 48000 2)
        [ca_test_asbd 96000 2, ca_test_asbd 88200 2] =
      ca_test_asbd 88200 2 ∧
    ca_asbd_reduce (ca_test_asbd 48000 2)
        [ca_test_asbd 88200 2, ca_test_asbd 96000 2] ≠
      ca_asbd_reduce (ca_test_asbd 48000 2)
        [ca_test_asbd 96000 2, ca_test_asbd 88200 2] := by
  refine ⟨List.Perm.swap _ _ _, by decide, by decide, by decide, by decide⟩

/-- Decoding depends only on the bit-depth and flag fields of the
descriptor. -/
theorem ca_make_mp_format_congr (a b : AudioStreamBasicDescription)
    (h1 : a.mBitsPerChannel = b.mBitsPerChannel)
    (h2 : a.mFormatFlags = b.mFormatFlags) :
    ca_make_mp_format a = ca_make_mp_format b := by
  unfold ca_make_mp_format
  rw [h1, h2]

/-- Claim C5: decoding the descriptor produced by encoding reproduces the
sample format's bit depth, float/signed/unsigned class and endianness
exactly, for every class, endianness, supported bit depth, rate and channel
count. -/
theorem ca_make_mp_format_roundtrip (f : MPFormat) (rate : Int)
    (channels : Nat) :
    ca_make_mp_format (ca_make_asbd f rate channels) = some f := by
  rw [ca_make_mp_format_congr (ca_make_asbd f rate channels)
    (ca_make_asbd f 0 0) rfl rfl]
  obtain ⟨cls, endian, bits⟩ := f
  cases cls <;> cases endian <;> cases bits <;> decide

/-- Claim C8 counterexample: the claim says a candidate whose channel count
matches the target's always beats one whose does not, irrespective of rate.
The code refutes this for an uninitialized first candidate: with a of rate 0
and matching channel count and b of mismatched channel count, ca_asbd_better
returns 1 and selects b. -/
theorem ca_asbd_better_uninit_chan_match_cex :
    (ca_test_asbd 0 2).mChannelsPerFrame =
      (ca_test_asbd 48000 2).mChannelsPerFrame ∧
    (ca_test_asbd 44100 6).mChannelsPerFrame ≠
      (ca_test_asbd 48000 2).mChannelsPerFrame ∧
    ca_asbd_better (ca_test_asbd 48000 2) (ca_test_asbd 0 2)
      (ca_test_asbd 44100 6) = 1 := by
  decide

/-- Claim C8 (amended): if the first candidate is initialized (nonzero
sample rate), its channel count matches the target's and the second
candidate's does not, then ca_asbd_better selects the first candidate,
irrespective of either sample rate. -/
theorem ca_asbd_better_chan_match_wins (t a b : AudioStreamBasicDescription)
    (ha : a.mSampleRate ≠ 0)
    (hm : a.mChannelsPerFrame = t.mChannelsPerFrame)
    (hn : b.mChannelsPerFrame ≠ t.mChannelsPerFrame) :
    ca_asbd_better t a b = -1 := by
  unfold ca_asbd_better
  rw [if_neg ha]
  by_cases hb : b.mSampleRate = 0
  · rw [if_pos hb]
  · rw [if_neg hb, if_pos ⟨hm, hn⟩]

/-- Claim C8 witness: at target 48000/2ch, initialized candidate 44100/2ch
beats candidate 44100/6ch. -/
theorem ca_asbd_better_chan_match_wins_witness :
    ca_asbd_better (ca_test_asbd 48000 2) (ca_test_asbd 44100 2)
      (ca_test_asbd 44100 6) = -1 :=
  ca_asbd_better_chan_match_wins _ _ _ (by decide) (by decide) (by decide)

/-- Claim C9: if the fetched current format already satisfies ca_asbd_best
against the requested one, ca_change_format returns true immediately and
performs no further external call: no listener registration, no format-set
request, no polling and no listener removal. -/
theorem ca_change_format_noop_guard (env : CAEnv)
    (fmt actual : AudioStreamBasicDescription)
    (hf : env.fetched = some actual)
    (hb : ca_asbd_best actual fmt = true) :
    ca_change_format env fmt = (true, [CAEvent.fetch]) := by
  unfold ca_change_format
  rw [hf]
  simp [hb]

/-- Claim C9 witness: a run whose fetched format equals the requested one
returns true after the fetch alone. -/
theorem ca_change_format_noop_guard_witness :
    ca_change_format
      { fetched := some (ca_test_asbd 48000 2), enableOk := false,
        setOk := false, flagRead := fun _ => false, disableOk := false }
      (ca_test_asbd 48000 2) = (true, [CAEvent.fetch]) :=
  ca_change_format_noop_guard _ _ (ca_test_asbd 48000 2) rfl (by decide)

/-- Listener update characterization: ca_property_listener leaves the flag
unchanged unless some notified address carries the given selector, in which
case it writes 1. -/
theorem ca_property_listener_eq (selector : Nat)
    (addrs : List AudioObjectPropertyAddress) (flag : Int) :
    ca_property_listener selector addrs flag =
      (if addrs.any (fun a => a.mSelector == selector) then 1 else flag) := by
  induction addrs with
  | nil => simp [ca_property_listener]
  | cons a rest ih =>
    by_cases h : a.mSelector = selector
    · simp [ca_property_listener, h]
    · simp [ca_property_listener, h, ih]

/-- Claim C10: ca_enable_stream_listener and ca_disable_stream_listener
ignore their sel argument and always target the virtual-format property
address (adding respectively removing the callback), while the registered
callback ca_stream_listener writes 1 to the shared flag exactly when some
notified address carries the physical-format selector and otherwise leaves
the flag unchanged. -/
theorem ca_stream_listener_spec (device sel sel' flag : Nat)
    (addrs : List AudioObjectPropertyAddress) (old : Int) :
    ca_enable_stream_listener device sel flag =
      ca_enable_stream_listener device sel' flag ∧
    ca_disable_stream_listener device sel flag =
      ca_disable_stream_listener device sel' flag ∧
    (ca_enable_stream_listener device sel flag).address.mSelector =
      kAudioStreamPropertyVirtualFormat ∧
    (ca_disable_stream_listener device sel flag).address.mSelector =
      kAudioStreamPropertyVirtualFormat ∧
    (ca_enable_stream_listener device sel flag).adding = true ∧
    (ca_disable_stream_listener device sel flag).adding = false ∧
    ca_stream_listener addrs old =
      (if addrs.any
           (fun a => a.mSelector == kAudioStreamPropertyPhysicalFormat)
       then 1 else old) := by
  exact ⟨rfl, rfl, rfl, rfl, rfl, rfl, ca_property_listener_eq _ _ _⟩

/-- Run of ca_change_format in which the fetch succeeds with a format that
is not best against the request, listener registration succeeds, and the
format-set request fails. -/
def ca_env_set_failure : CAEnv :=
  { fetched := some (ca_test_asbd 44100 2), enableOk := true, setOk := false,
    flagRead := fun _ => false, disableOk := true }

/-- Claim C3: the claim says the listener, once successfully registered, is
unregistered on every exit path, including a failure of the format-set
request. The code refutes this: in a run where registration succeeds and the
format-set request fails, ca_change_format returns false with no listener
removal in its call trace, leaving the listener registered. -/
theorem ca_change_format_set_failure_leaks_listener :
    ca_env_set_failure.enableOk = true ∧
    CAEvent.enable ∈ (ca_change_format ca_env_set_failure (ca_test_asbd 48000 2)).2 ∧
    CAEvent.disable ∉ (ca_change_format ca_env_set_failure (ca_test_asbd 48000 2)).2 ∧
    (ca_change_format ca_env_set_failure (ca_test_asbd 48000 2)).1 = false := by
  decide

/-- Run of ca_change_format reaching the polling loop with a never-set flag
and a failing listener removal. -/
def ca_env_timeout_disable_failure : CAEnv :=
  { fetched := some (ca_test_asbd 44100 2), enableOk := true, setOk := true,
    flagRead := fun _ => false, disableOk := false }

/-- Claim C4 counterexample: the claim says that whenever the fetch succeeds,
the no-op guard does not fire, registration and the set request succeed and
the confirmation flag is never set, ca_change_format returns true. The code
refutes this when the listener removal itself fails: all the claim's
conditions hold, yet the function returns false. -/
theorem ca_change_format_timeout_disable_failure_cex :
    ca_env_timeout_disable_failure.fetched = some (ca_test_asbd 44100 2) ∧
    ca_asbd_best (ca_test_asbd 44100 2) (ca_test_asbd 48000 2) = false ∧
    ca_env_timeout_disable_failure.enableOk = true ∧
    ca_env_timeout_disable_failure.setOk = true ∧
    ca_env_timeout_disable_failure.flagRead = (fun _ => false) ∧
    (ca_change_format ca_env_timeout_disable_failure
      (ca_test_asbd 48000 2)).1 = false :=
  ⟨rfl, by decide, rfl, rfl, rfl, by decide⟩

/-- Polling with a never-set flag performs the full 50-sleep budget. -/
theorem ca_poll_sleeps_eq_fifty (flagRead : Nat → Bool)
    (h : ∀ j, flagRead j = false) : ca_poll_sleeps flagRead = 50 := by
  unfold ca_poll_sleeps
  have htw : ∀ l : List Nat,
      List.takeWhile (fun j => ! flagRead j) l = l := by
    intro l
    induction l with
    | nil => rfl
    | cons a t ih => simp [List.takeWhile_cons, h a, ih]
  rw [htw]
  simp

/-- Claim C4 (amended): if the fetch succeeds with a format that is not best
against the request, the listener is registered and the format-set request
succeeds, the confirmation flag is never set, and the listener removal
succeeds, then ca_change_format performs exactly its 50-iteration budget of
10 ms sleeps and returns true, reporting the timeout as a soft failure. -/
theorem ca_change_format_timeout_returns_success (env : CAEnv)
    (fmt actual : AudioStreamBasicDescription)
    (hf : env.fetched = some actual)
    (hb : ca_asbd_best actual fmt = false)
    (he : env.enableOk = true)
    (hs : env.setOk = true)
    (hflag : ∀ j, env.flagRead j = false)
    (hd : env.disableOk = true) :
    (ca_change_format env fmt).1 = true ∧
    List.count (CAEvent.sleep 10000) (ca_change_format env fmt).2 = 50 := by
  unfold ca_change_format
  rw [hf]
  rw [ca_poll_sleeps_eq_fifty env.flagRead hflag]
  simp [hb, he, hs, hd]

/-- Run of ca_change_format reaching the polling loop with a never-set flag
and a succeeding listener removal. -/
def ca_env_timeout_ok : CAEnv :=
  { fetched := some (ca_test_asbd 44100 2), enableOk := true, setOk := true,
    flagRead := fun _ => false, disableOk := true }

/-- Claim C4 witness: the timeout run with succeeding listener removal
returns true after its 50 sleeps. -/
theorem ca_change_format_timeout_returns_success_witness :
    (ca_change_format ca_env_timeout_ok (ca_test_asbd 48000 2)).1 = true ∧
    List.count (CAEvent.sleep 10000)
      (ca_change_format ca_env_timeout_ok (ca_test_asbd 48000 2)).2 = 50 :=
  ca_change_format_timeout_returns_success ca_env_timeout_ok
    (ca_test_asbd 48000 2) (ca_test_asbd 44100 2) rfl (by decide) rfl rfl
    (fun _ => rfl) rfl

/-- Accumulator generalization of ca_bitmaps_from_layouts: the loop appends
exactly the per-layout resolutions that succeed. -/
theorem ca_bitmaps_foldl_general (tagLookup : Nat → Option Nat) :
    ∀ (layouts : List AudioChannelLayout) (acc : List Nat),
      List.foldl
        (fun acc layout =>
          match ca_layout_resolve tagLookup layout with
          | some bm => acc ++ [bm]
          | none => acc)
        acc layouts =
      acc ++ List.filterMap (ca_layout_resolve tagLookup) layouts := by
  intro layouts
  induction layouts with
  | nil => intro acc; simp
  | cons l rest ih =>
    intro acc
    rw [List.foldl_cons, List.filterMap_cons]
    cases h : ca_layout_resolve tagLookup l with
    | none => simp only [h]; exact ih acc
    | some bm =>
      simp only [h]
      rw [ih (acc ++ [bm])]
      simp

/-- Claim C6: ca_bitmaps_from_layouts outputs exactly the bitmasks of the
layouts that resolve fully, in input order, each rejected layout omitted
entirely and contributing no partial bitmask (the output is the elementwise
filterMap of the independent per-layout resolution, so no layout's rejection
alters any other layout's result), and the output length is at most the
input length. -/
theorem ca_bitmaps_from_layouts_spec (tagLookup : Nat → Option Nat)
    (layouts : List AudioChannelLayout) :
    ca_bitmaps_from_layouts tagLookup layouts =
      List.filterMap (ca_layout_resolve tagLookup) layouts ∧
    (ca_bitmaps_from_layouts tagLookup layouts).length ≤ layouts.length := by
  have h2 : ca_bitmaps_from_layouts tagLookup layouts =
      List.filterMap (ca_layout_resolve tagLookup) layouts := by
    unfold ca_bitmaps_from_layouts
    simpa using ca_bitmaps_foldl_general tagLookup layouts []
  exact ⟨h2, h2 ▸ List.length_filterMap_le _ _⟩

/-- One reduction step returns one of its two arguments. -/
theorem ca_pick_mem (t a c : AudioStreamBasicDescription) :
    ca_pick t a c = a ∨ ca_pick t a c = c := by
  unfold ca_pick
  by_cases h : 0 < ca_asbd_better t a c
  · rw [if_pos h]; right; rfl
  · rw [if_neg h]; left; rfl

/-- The folded reduction returns the start descriptor or a list element. -/
theorem ca_foldl_pick_mem (t : AudioStreamBasicDescription) :
    ∀ (l : List AudioStreamBasicDescription) (acc : AudioStreamBasicDescription),
      List.foldl (ca_pick t) acc l = acc ∨ List.foldl (ca_pick t) acc l ∈ l := by
  intro l
  induction l with
  | nil => intro acc; left; rfl
  | cons c rest ih =>
    intro acc
    rw [List.foldl_cons]
    rcases ih (ca_pick t acc c) with h | h
    · rw [h]
      rcases ca_pick_mem t acc c with h2 | h2
      · left; exact h2
      · right; rw [h2]; exact List.mem_cons_self _ _
    · right; exact List.mem_cons_of_mem _ h

/-- Preservation: for a positive target rate, a current best that matches the
target's channel count and does not fall below the target's rate keeps both
properties through one reduction step against any challenger. -/
theorem ca_pick_pres (t a c : AudioStreamBasicDescription)
    (ht : 0 < t.mSampleRate)
    (hm : a.mChannelsPerFrame = t.mChannelsPerFrame)
    (hr : t.mSampleRate ≤ a.mSampleRate) :
    (ca_pick t a c).mChannelsPerFrame = t.mChannelsPerFrame ∧
    t.mSampleRate ≤ (ca_pick t a c).mSampleRate := by
  have ha0 : ¬ a.mSampleRate = 0 := by
    intro h0
    rw [h0] at hr
    linarith
  have hneg : ¬ ((0 : Int) < -1) := by norm_num
  have hpos : (0 : Int) < 1 := by norm_num
  unfold ca_pick ca_asbd_better
  rw [if_neg ha0]
  by_cases hc0 : c.mSampleRate = 0
  · rw [if_pos hc0, if_neg hneg]
    exact ⟨hm, hr⟩
  rw [if_neg hc0]
  by_cases hcch : c.mChannelsPerFrame = t.mChannelsPerFrame
  · have hcond1 : ¬ (a.mChannelsPerFrame = t.mChannelsPerFrame ∧
        c.mChannelsPerFrame ≠ t.mChannelsPerFrame) := fun h => h.2 hcch
    have hcond2 : ¬ (a.mChannelsPerFrame ≠ t.mChannelsPerFrame ∧
        c.mChannelsPerFrame = t.mChannelsPerFrame) := fun h => h.1 hm
    rw [if_neg hcond1, if_neg hcond2, if_neg (not_lt.mpr hr)]
    by_cases hc5 : c.mSampleRate < t.mSampleRate
    · rw [if_pos hc5, if_neg hneg]
      exact ⟨hm, hr⟩
    rw [if_neg hc5]
    by_cases h7 : t.mSampleRate < a.mSampleRate
    · rw [if_pos h7, if_pos hpos]
      exact ⟨hcch, not_lt.mp hc5⟩
    · rw [if_neg h7, if_neg hneg]
      exact ⟨hm, hr⟩
  · have hcond1 : a.mChannelsPerFrame = t.mChannelsPerFrame ∧
        c.mChannelsPerFrame ≠ t.mChannelsPerFrame := ⟨hm, hcch⟩
    rw [if_pos hcond1, if_neg hneg]
    exact ⟨hm, hr⟩

/-- Establishment: for a positive target rate, a challenger that matches the
target's channel count and does not fall below the target's rate gives both
properties to the result of one reduction step, whatever the current best. -/
theorem ca_pick_estab (t a c : AudioStreamBasicDescription)
    (ht : 0 < t.mSampleRate)
    (hm : c.mChannelsPerFrame = t.mChannelsPerFrame)
    (hr : t.mSampleRate ≤ c.mSampleRate) :
    (ca_pick t a c).mChannelsPerFrame = t.mChannelsPerFrame ∧
    t.mSampleRate ≤ (ca_pick t a c).mSampleRate := by
  have hc0 : ¬ c.mSampleRate = 0 := by
    intro h0
    rw [h0] at hr
    linarith
  have hneg : ¬ ((0 : Int) < -1) := by norm_num
  have hpos : (0 : Int) < 1 := by norm_num
  unfold ca_pick ca_asbd_better
  by_cases ha0 : a.mSampleRate = 0
  · rw [if_pos ha0, if_pos hpos]
    exact ⟨hm, hr⟩
  rw [if_neg ha0, if_neg hc0]
  by_cases hach : a.mChannelsPerFrame = t.mChannelsPerFrame
  · have hcond1 : ¬ (a.mChannelsPerFrame = t.mChannelsPerFrame ∧
        c.mChannelsPerFrame ≠ t.mChannelsPerFrame) := fun h => h.2 hm
    have hcond2 : ¬ (a.mChannelsPerFrame ≠ t.mChannelsPerFrame ∧
        c.mChannelsPerFrame = t.mChannelsPerFrame) := fun h => h.1 hach
    rw [if_neg hcond1, if_neg hcond2]
    by_cases ha5 : a.mSampleRate < t.mSampleRate
    · rw [if_pos ha5, if_pos hpos]
      exact ⟨hm, hr⟩
    rw [if_neg ha5, if_neg (not_lt.mpr hr)]
    by_cases h7 : t.mSampleRate < a.mSampleRate
    · rw [if_pos h7, if_pos hpos]
      exact ⟨hm, hr⟩
    · rw [if_neg h7, if_neg hneg]
      exact ⟨hach, not_lt.mp ha5⟩
  · have hcond1 : ¬ (a.mChannelsPerFrame = t.mChannelsPerFrame ∧
        c.mChannelsPerFrame ≠ t.mChannelsPerFrame) := fun h => hach h.1
    have hcond2 : a.mChannelsPerFrame ≠ t.mChannelsPerFrame ∧
        c.mChannelsPerFrame = t.mChannelsPerFrame := ⟨hach, hm⟩
    rw [if_neg hcond1, if_pos hcond2, if_pos hpos]
    exact ⟨hm, hr⟩

/-- Folded preservation along a candidate suffix. -/
theorem ca_foldl_pick_good (t : AudioStreamBasicDescription)
    (ht : 0 < t.mSampleRate) :
    ∀ (l : List AudioStreamBasicDescription)
      (acc : AudioStreamBasicDescription),
      acc.mChannelsPerFrame = t.mChannelsPerFrame →
      t.mSampleRate ≤ acc.mSampleRate →
      (List.foldl (ca_pick t) acc l).mChannelsPerFrame =
        t.mChannelsPerFrame ∧
      t.mSampleRate ≤ (List.foldl (ca_pick t) acc l).mSampleRate := by
  intro l
  induction l with
  | nil => intro acc h1 h2; exact ⟨h1, h2⟩
  | cons c rest ih =>
    intro acc h1 h2
    rw [List.foldl_cons]
    obtain ⟨g1, g2⟩ := ca_pick_pres t acc c ht h1 h2
    exact ih (ca_pick t acc c) g1 g2

/-- Claim C7 counterexample: the claim as stated fails at a target of sample
rate 0: the list contains a candidate of rate 0 (so at or above the target's
rate) with matching channel count, yet the reduction winner is the rate -1
candidate, whose rate is below the target's, because the comparator treats
the rate-0 best as uninitialized and discards it. -/
theorem ca_asbd_reduce_negative_rate_cex :
    ca_test_asbd 0 2 ∈ [ca_test_asbd 0 2, ca_test_asbd (-1) 2] ∧
    (ca_test_asbd 0 2).mChannelsPerFrame =
      (ca_test_asbd 0 2).mChannelsPerFrame ∧
    (ca_test_asbd 0 2).mSampleRate ≤ (ca_test_asbd 0 2).mSampleRate ∧
    ¬ (ca_test_asbd 0 2).mSampleRate ≤
        (ca_asbd_reduce (ca_test_asbd 0 2)
          [ca_test_asbd 0 2, ca_test_asbd (-1) 2]).mSampleRate := by
  decide

/-- Claim C7 (amended): for every target and candidate list in which every
candidate's sample rate is nonnegative, if some candidate has sample rate at
or above the target's and channel count equal to the target's, then the
reduction winner's sample rate is at or above the target's. -/
theorem ca_asbd_reduce_never_downsample (t : AudioStreamBasicDescription)
    (l : List AudioStreamBasicDescription)
    (hnn : ∀ c ∈ l, 0 ≤ c.mSampleRate)
    (hex : ∃ c ∈ l, c.mChannelsPerFrame = t.mChannelsPerFrame ∧
      t.mSampleRate ≤ c.mSampleRate) :
    t.mSampleRate ≤ (ca_asbd_reduce t l).mSampleRate := by
  unfold ca_asbd_reduce
  by_cases ht : 0 < t.mSampleRate
  · obtain ⟨cs, hmem, hchm, hcr⟩ := hex
    obtain ⟨xs, ys, rfl⟩ := List.append_of_mem hmem
    rw [List.foldl_append, List.foldl_cons]
    obtain ⟨g1, g2⟩ :=
      ca_pick_estab t (List.foldl (ca_pick t) ca_asbd_uninit xs) cs ht hchm hcr
    exact (ca_foldl_pick_good t ht ys _ g1 g2).2
  · have ht2 : t.mSampleRate ≤ 0 := not_lt.mp ht
    rcases ca_foldl_pick_mem t l ca_asbd_uninit with h | h
    · rw [h]
      exact ht2
    · exact le_trans ht2 (hnn _ h)

/-- Claim C7 witness: at target 48000/2ch with candidates 96000/2ch and
48000/2ch, the winner's rate is at or above 48000. -/
theorem ca_asbd_reduce_never_downsample_witness :
    (ca_test_asbd 48000 2).mSampleRate ≤
      (ca_asbd_reduce (ca_test_asbd 48000 2)
        [ca_test_asbd 96000 2, ca_test_asbd 48000 2]).mSampleRate :=
  ca_asbd_reduce_never_downsample (ca_test_asbd 48000 2)
    [ca_test_asbd 96000 2, ca_test_asbd 48000 2]
    (by decide)
    ⟨ca_test_asbd 48000 2, by decide, by decide, by decide⟩
